import Mathlib

/-!
Verification of the multi-provider medical search aggregation service
(`scraper_service.py`).  The Python source is shallowly embedded: each
provider search, the login flows and the aggregation endpoint become total
Lean functions over explicit environments describing upstream responses and
browser interactions.  Fallible Python code is modelled with `Except`;
Python dictionary `.get` with `Option`; decimal string interpolation with
`Nat.repr`.
-/

/-! ### Python primitives -/

/-- Python exception classes that escape the functions we model:
FastAPI `HTTPException(status_code, detail)` and `IndexError` from list
indexing. -/
structure HErr where
  status : Nat
  detail : String
deriving Repr, DecidableEq

inductive PyErr where
  | http (e : HErr)
  | indexError
deriving Repr, DecidableEq

instance {ε α : Type} [DecidableEq ε] [DecidableEq α] :
    DecidableEq (Except ε α) := fun a b =>
  match a, b with
  | .error e, .error f =>
    if h : e = f then .isTrue (by rw [h]) else .isFalse (by simp [h])
  | .error _, .ok _ => .isFalse (by simp)
  | .ok _, .error _ => .isFalse (by simp)
  | .ok x, .ok y =>
    if h : x = y then .isTrue (by rw [h]) else .isFalse (by simp [h])

/-- Python `str(e)`: FastAPI `HTTPException.__str__` renders
`f"{status_code}: {detail}"`; `str(IndexError(...))` is
"list index out of range". -/
def pyErrStr : PyErr → String
  | .http e => Nat.repr e.status ++ ": " ++ e.detail
  | .indexError => "list index out of range"

/-- Python `lst[i]` on a list: the value, or `IndexError` when out of range
(no negative indices occur in the modelled code). -/
def pyIndex {α : Type} (l : List α) (i : Nat) : Except PyErr α :=
  match l[i]? with
  | some x => .ok x
  | none => .error .indexError

/-- Python `s.split(sep)` for a one-character separator: split at every
occurrence, keeping empty pieces (`"".split("/") == [""]`). -/
def pySplitChar (c : Char) (s : String) : List String :=
  (s.data.splitOn c).map (fun l => String.mk l)

/-- Python `s[:n]` on a string (slicing by code points). -/
def pyTake (n : Nat) (s : String) : String :=
  String.mk (s.data.take n)

/-- Python `s.split()` with no argument: split on whitespace runs,
discarding empty pieces (so `" ".split() == []`). -/
def pySplitWs (s : String) : List String :=
  ((s.data.splitOnP (fun c => c.isWhitespace)).filter (fun l => l ≠ [])).map
    (fun l => String.mk l)

/-- Python `s.isdigit()` (restricted to ASCII digits, which is all the
modelled code ever feeds it). -/
def pyIsDigit (s : String) : Bool :=
  s ≠ "" && s.data.all Char.isDigit

/-- Python `int(s)` on a string of ASCII digits. -/
def pyIntOfDigits (s : String) : Nat :=
  s.data.foldl (fun a c => a * 10 + (c.toNat - 48)) 0

/-- Helper for substring tests: does the second list start with the
first one. -/
def startsWithList : List Char → List Char → Bool
  | [], _ => true
  | _ :: _, [] => false
  | a :: as, b :: bs => a = b && startsWithList as bs

/-- Python `s.startswith(p)`. -/
def pyStartsWith (s p : String) : Bool :=
  startsWithList p.data s.data

def containsList (needle : List Char) : List Char → Bool
  | [] => startsWithList needle []
  | c :: t => startsWithList needle (c :: t) || containsList needle t

/-- Python `needle in hay` on strings. -/
def pyIn (needle hay : String) : Bool :=
  containsList needle.data hay.data

/-- Python `s.lower()`. -/
def pyLower (s : String) : String :=
  String.mk (s.data.map Char.toLower)

/-- Python `s.title()` for the single lowercase words it is applied to in
the source (provider names such as "pubmed"): capitalize the first
character, lowercase the rest. -/
def pyTitle (s : String) : String :=
  match s.data with
  | [] => ""
  | c :: t => String.mk (c.toUpper :: t.map Char.toLower)

/-! ### Shared data model (`Citation`, `SearchResponse`, configuration) -/

structure Citation where
  id : String
  title : String
  authors : Option (List String) := none
  source : String
  year : Option Nat := none
  url : Option String := none
  pmid : Option String := none
  snippet : Option String := none
deriving Repr, DecidableEq

structure SearchResponse where
  provider : String
  query : String
  content : String
  citations : List Citation
  timestamp : Nat
deriving Repr, DecidableEq

/-- The SearchRequest pydantic model (the fields the modelled endpoints
read). -/
structure SearchRequest where
  query : String
  max_results : Nat := 5
  perplexity_model : String := "sonar-pro"
deriving Repr, DecidableEq

def MEDICAL_DOMAINS : List String :=
  ["ncbi.nlm.nih.gov", "pubmed.ncbi.nlm.nih.gov", "uptodate.com", "nejm.org",
   "jamanetwork.com", "thelancet.com", "cochrane.org", "mayoclinic.org",
   "acponline.org"]

/-- The horizontal divider used to join per-result blocks. -/
def divider : String := "\n\n---\n\n"

/-- Outcome of one upstream HTTPS POST as seen by the provider clients:
an `httpx.RequestError` (transport failure), a non-success HTTP status,
or a parsed JSON body. -/
inductive Upstream (α : Type) where
  | transportError (msg : String)
  | httpError (status : Nat)
  | ok (data : α)
deriving Repr, DecidableEq

/-! ### Perplexity provider (`MedicalScraper.search_perplexity`) -/

/-- The `system_prompts` dictionary entry for "sonar-pro". -/
def promptSonarPro (medicalFocus : Bool) : String :=
  if medicalFocus then
    "You are a medical education researcher. Provide comprehensive, evidence-based information with specific citations. Focus on current guidelines, landmark studies, and clinical pearls. Always cite sources with author, year, and journal/guideline name."
  else "You are a helpful research assistant."

/-- The `system_prompts` dictionary entry for "sonar-reasoning-pro". -/
def promptSonarReasoning (medicalFocus : Bool) : String :=
  if medicalFocus then
    "You are an expert clinical educator. Think through this medical topic step-by-step, explaining your clinical reasoning. Consider differential diagnoses, pathophysiology, and evidence-based management. Cite guidelines and landmark trials. Show your reasoning process."
  else "You are an analytical researcher. Think step-by-step and show your reasoning."

/-- The `system_prompts` dictionary entry for "sonar-deep-research". -/
def promptSonarDeep (medicalFocus : Bool) : String :=
  if medicalFocus then
    "You are a medical literature researcher conducting an exhaustive review. Synthesize information from multiple high-quality sources including guidelines, systematic reviews, and landmark trials. Provide a comprehensive analysis with extensive citations."
  else "Conduct exhaustive research and provide comprehensive synthesis."

/-- Model of `system_prompts.get(model, system_prompts["sonar-pro"])`. -/
def perplexitySystemPrompt (medicalFocus : Bool) (model : String) : String :=
  if model = "sonar-pro" then promptSonarPro medicalFocus
  else if model = "sonar-reasoning-pro" then promptSonarReasoning medicalFocus
  else if model = "sonar-deep-research" then promptSonarDeep medicalFocus
  else promptSonarPro medicalFocus

/-- Model of `temperature = 0.1 if model == "sonar-reasoning-pro" else 0.2`. -/
def perplexityTemperature (model : String) : ℚ :=
  if model = "sonar-reasoning-pro" then 0.1 else 0.2

/-- The JSON body of the Perplexity chat-completions POST.  Note it has no
result-count field of any kind. -/
structure PplxRequestBody where
  model : String
  systemMessage : String
  userMessage : String
  temperature : ℚ
  return_citations : Bool
  search_domain_filter : Option (List String)
deriving Repr, DecidableEq

def perplexityRequestBody (query : String) (medicalFocus : Bool)
    (model : String) : PplxRequestBody :=
  { model := model
    systemMessage := perplexitySystemPrompt medicalFocus model
    userMessage := query
    temperature := perplexityTemperature model
    return_citations := true
    search_domain_filter := if medicalFocus then some MEDICAL_DOMAINS else none }

/-- One element of the upstream `citations` array: either a bare URL string
or an object with optional `title`/`url`. -/
inductive PplxRawCitation where
  | str (s : String)
  | obj (title : Option String) (url : Option String)
deriving Repr, DecidableEq

/-- One element of `citations = [Citation(id=f"pplx-{i}", ...) ...]`. -/
def pplxCitation (i : Nat) (c : PplxRawCitation) : Citation :=
  match c with
  | .str s =>
    { id := "pplx-" ++ Nat.repr i, title := s, source := "Perplexity",
      url := some s }
  | .obj t u =>
    { id := "pplx-" ++ Nat.repr i,
      title := t.getD ("Source " ++ Nat.repr (i + 1)),
      source := "Perplexity", url := some (u.getD "") }

def pplxCitations (raw : List PplxRawCitation) : List Citation :=
  raw.enum.map (fun ic => pplxCitation ic.1 ic.2)

structure PplxMessage where
  content : Option String
deriving Repr, DecidableEq

structure PplxChoice where
  message : Option PplxMessage
deriving Repr, DecidableEq

/-- Parsed JSON body of a 200 Perplexity response. -/
structure PplxUpstream where
  choices : Option (List PplxChoice)
  citations : Option (List PplxRawCitation)
deriving Repr, DecidableEq

/-- Model of `data.get("choices", [{}])[0].get("message", {}).get("content", "")`:
the `[0]` raises `IndexError` when the body holds `"choices": []`. -/
def pplxContent (up : PplxUpstream) : Except PyErr String :=
  match pyIndex (up.choices.getD [⟨none⟩]) 0 with
  | .error e => .error e
  | .ok c => .ok ((c.message.getD ⟨none⟩).content.getD "")

/-- Model of `MedicalScraper.search_perplexity`.  Here `hasKey` is the presence of
`PERPLEXITY_API_KEY` (or its `VITE_` variant) in the environment; `up` is
the outcome of the single upstream POST. -/
def search_perplexity (query : String) (medicalFocus : Bool) (model : String)
    (hasKey : Bool) (up : Upstream PplxUpstream) (now : Nat) :
    Except PyErr SearchResponse :=
  if hasKey = false then
    .error (.http ⟨400, "PERPLEXITY_API_KEY not configured"⟩)
  else
    match up with
    | .transportError m =>
      .error (.http ⟨500, "Perplexity request failed: " ++ m⟩)
    | .httpError s => .error (.http ⟨s, "Perplexity API error"⟩)
    | .ok u =>
      match pplxContent u with
      | .error e => .error e
      | .ok content =>
        .ok { provider := "perplexity", query := query, content := content,
              citations := pplxCitations (u.citations.getD []),
              timestamp := now }

/-- The `/search/perplexity` endpoint: forwards only `request.query` and
`request.perplexity_model`; `request.max_results` is never read. -/
def endpoint_search_perplexity (req : SearchRequest) (hasKey : Bool)
    (up : Upstream PplxUpstream) (now : Nat) : Except PyErr SearchResponse :=
  search_perplexity req.query true req.perplexity_model hasKey up now

/-! ### Exa provider (`MedicalScraper.search_exa`) -/

/-- One element of the upstream `results` array, fields optional. -/
structure ExaRaw where
  title : Option String
  url : Option String
  highlights : Option (List String)
  text : Option String
deriving Repr, DecidableEq

/-- The JSON body of the Exa POST (the `contents` sub-object flattened into
the two scalar options the source sets). -/
structure ExaRequestBody where
  query : String
  numResults : Nat
  useAutoprompt : Bool
  searchType : String
  textMaxCharacters : Nat
  highlightsNumSentences : Nat
  includeDomains : List String
deriving Repr, DecidableEq

def exaRequestBody (query : String) (maxResults : Nat) : ExaRequestBody :=
  { query := "medical education " ++ query
    numResults := maxResults
    useAutoprompt := true
    searchType := "neural"
    textMaxCharacters := 2000
    highlightsNumSentences := 3
    includeDomains := MEDICAL_DOMAINS }

/-- One element of the Exa citations list comprehension:
`Citation(id=f"exa-{i}", title=r.get("title", "Untitled"),
source=r.get("url", "").split("/")[2] if r.get("url") else "Exa", ...)`.
The `[2]` raises `IndexError` whenever the url is a nonempty string with
fewer than two slashes. -/
def exaCitation (i : Nat) (r : ExaRaw) : Except PyErr Citation :=
  match (if r.url.getD "" ≠ "" then pyIndex (pySplitChar '/' (r.url.getD "")) 2
         else .ok "Exa") with
  | .error e => .error e
  | .ok src =>
    .ok { id := "exa-" ++ Nat.repr i
          title := r.title.getD "Untitled"
          source := src
          url := some (r.url.getD "")
          snippet := some (match r.highlights with
            | some (h :: _) => h
            | _ => pyTake 300 (r.text.getD "")) }

/-- The Exa citations list comprehension with running `enumerate` index:
the first `IndexError` aborts the whole comprehension. -/
def exaCitationsFrom (i : Nat) : List ExaRaw → Except PyErr (List Citation)
  | [] => .ok []
  | r :: rs =>
    match exaCitation i r with
    | .error e => .error e
    | .ok c =>
      match exaCitationsFrom (i + 1) rs with
      | .error e => .error e
      | .ok cs => .ok (c :: cs)

def exaCitations (rs : List ExaRaw) : Except PyErr (List Citation) :=
  exaCitationsFrom 0 rs

/-- One block of the combined Exa content:
the heading line with the title fallback followed by the text field, where
the fallback (highlights head or empty) is used only when the text KEY is absent.
Here the fallback is used only when the `text` key is absent. -/
def exaContentBlock (r : ExaRaw) : String :=
  "## " ++ r.title.getD "Untitled" ++ "\n" ++
    (match r.text with
     | some t => t
     | none => match r.highlights with
       | some (h :: _) => h
       | _ => "")

def exaContent (rs : List ExaRaw) : String :=
  String.intercalate divider (rs.map exaContentBlock)

/-- Model of `MedicalScraper.search_exa`. -/
def search_exa (query : String) (maxResults : Nat) (hasKey : Bool)
    (up : Upstream (List ExaRaw)) (now : Nat) : Except PyErr SearchResponse :=
  if hasKey = false then .error (.http ⟨400, "EXA_API_KEY not configured"⟩)
  else
    match up with
    | .transportError m => .error (.http ⟨500, "Exa request failed: " ++ m⟩)
    | .httpError s => .error (.http ⟨s, "Exa API error"⟩)
    | .ok rs =>
      match exaCitations rs with
      | .error e => .error e
      | .ok cs =>
        .ok { provider := "exa", query := query, content := exaContent rs,
              citations := cs, timestamp := now }

/-! ### Tavily provider (`MedicalScraper.search_tavily`) -/

structure TavilyRaw where
  title : Option String
  url : Option String
  content : Option String
deriving Repr, DecidableEq

/-- Parsed JSON body of a 200 Tavily response. -/
structure TavilyData where
  results : Option (List TavilyRaw)
  answer : Option String
deriving Repr, DecidableEq

structure TavilyRequestBody where
  api_key : String
  query : String
  search_depth : String
  include_domains : List String
  max_results : Nat
  include_answer : Bool
deriving Repr, DecidableEq

def tavilyRequestBody (apiKey query : String) (maxResults : Nat) :
    TavilyRequestBody :=
  { api_key := apiKey
    query := query ++ " medical guidelines evidence-based"
    search_depth := "advanced"
    include_domains := MEDICAL_DOMAINS
    max_results := maxResults
    include_answer := true }

/-- One element of the Tavily citations list comprehension; the source
field has the same fragile `url.split("/")[2]` as Exa. -/
def tavilyCitation (i : Nat) (r : TavilyRaw) : Except PyErr Citation :=
  match (if r.url.getD "" ≠ "" then pyIndex (pySplitChar '/' (r.url.getD "")) 2
         else .ok "Tavily") with
  | .error e => .error e
  | .ok src =>
    .ok { id := "tavily-" ++ Nat.repr i
          title := r.title.getD "Untitled"
          source := src
          url := some (r.url.getD "")
          snippet := some (pyTake 300 (r.content.getD "")) }

def tavilyCitationsFrom (i : Nat) : List TavilyRaw → Except PyErr (List Citation)
  | [] => .ok []
  | r :: rs =>
    match tavilyCitation i r with
    | .error e => .error e
    | .ok c =>
      match tavilyCitationsFrom (i + 1) rs with
      | .error e => .error e
      | .ok cs => .ok (c :: cs)

def tavilyCitations (rs : List TavilyRaw) : Except PyErr (List Citation) :=
  tavilyCitationsFrom 0 rs

/-- Model of `MedicalScraper.search_tavily`: the response content is the upstream
`answer` field. -/
def search_tavily (query : String) (maxResults : Nat) (hasKey : Bool)
    (up : Upstream TavilyData) (now : Nat) : Except PyErr SearchResponse :=
  if hasKey = false then .error (.http ⟨400, "TAVILY_API_KEY not configured"⟩)
  else
    match up with
    | .transportError m => .error (.http ⟨500, "Tavily request failed: " ++ m⟩)
    | .httpError s => .error (.http ⟨s, "Tavily API error"⟩)
    | .ok d =>
      match tavilyCitations (d.results.getD []) with
      | .error e => .error e
      | .ok cs =>
        .ok { provider := "tavily", query := query,
              content := d.answer.getD "", citations := cs, timestamp := now }

/-! ### PubMed provider (`MedicalScraper.search_pubmed`) -/

structure PubmedEsearchParams where
  db : String
  term : String
  retmax : Nat
  retmode : String
deriving Repr, DecidableEq

def pubmedEsearchParams (query : String) (maxResults : Nat) :
    PubmedEsearchParams :=
  { db := "pubmed", term := query, retmax := maxResults, retmode := "json" }

structure EsearchResult where
  idlist : Option (List String)
deriving Repr, DecidableEq

/-- Parsed JSON body of the esearch call. -/
structure EsearchData where
  esearchresult : Option EsearchResult
deriving Repr, DecidableEq

/-- Model of `search_data.get("esearchresult", {}).get("idlist", [])`. -/
def pubmedIds (d : EsearchData) : List String :=
  ((d.esearchresult.getD ⟨none⟩).idlist).getD []

structure PubmedAuthor where
  name : Option String
deriving Repr, DecidableEq

structure PubmedArticle where
  title : Option String
  authors : Option (List PubmedAuthor)
  source : Option String
  pubdate : Option String
deriving Repr, DecidableEq

/-- Parsed JSON body of the esummary call: `fetch_data.get("result", {})`
as an association list from pmid to article.  An entry is present exactly
when `result_data.get(pmid, {})` is a truthy dict in the source. -/
structure EsummaryData where
  result : Option (List (String × PubmedArticle))
deriving Repr, DecidableEq

/-- Model of `int(pubdate.split()[0]) if pubdate and pubdate.split()[0].isdigit()
else None`: the `[0]` raises `IndexError` when a nonempty `pubdate` is all
whitespace. -/
def pubmedYear (pubdate : String) : Except PyErr (Option Nat) :=
  if pubdate = "" then .ok none
  else
    match pyIndex (pySplitWs pubdate) 0 with
    | .error e => .error e
    | .ok w => .ok (if pyIsDigit w then some (pyIntOfDigits w) else none)

/-- The per-article body of the pubmed result loop: the built `Citation`
together with the content block appended to `content_parts`. -/
def pubmedItem (pmid : String) (article : PubmedArticle) :
    Except PyErr (Citation × String) :=
  match pubmedYear (article.pubdate.getD "") with
  | .error e => .error e
  | .ok year =>
    .ok ({ id := "pubmed-" ++ pmid
           title := article.title.getD "Untitled"
           authors := some (((article.authors.getD []).take 3).map
             (fun a => a.name.getD ""))
           source := article.source.getD ""
           year := year
           pmid := some pmid
           url := some ("https://pubmed.ncbi.nlm.nih.gov/" ++ pmid ++ "/") },
         "**" ++ article.title.getD "Untitled" ++ "**\n" ++
           (if (((article.authors.getD []).take 3).map
                 (fun a => a.name.getD "")) ≠ [] then
              String.intercalate ", " (((article.authors.getD []).take 3).map
                (fun a => a.name.getD "")) ++ " et al."
            else "") ++ " - " ++ article.source.getD "" ++ " (" ++
           article.pubdate.getD "" ++ ")")

/-- The `for pmid in ids` loop: skips pmids whose summary entry is absent
(or a falsy non-dict), aborts on the first raised exception. -/
def pubmedItems : List String → List (String × PubmedArticle) →
    Except PyErr (List (Citation × String))
  | [], _ => .ok []
  | pmid :: rest, rm =>
    match List.lookup pmid rm with
    | none => pubmedItems rest rm
    | some a =>
      match pubmedItem pmid a with
      | .error e => .error e
      | .ok it =>
        match pubmedItems rest rm with
        | .error e => .error e
        | .ok its => .ok (it :: its)

/-- The two upstream NCBI E-utilities calls as the function sees them; an
`error` is any exception raised while performing the GET or parsing its
body (there is no status-code check in the source). -/
structure PubmedEnv where
  esearch : Except String EsearchData
  esummary : Except String EsummaryData
deriving Repr, DecidableEq

/-- Model of `MedicalScraper.search_pubmed`: two-step esearch/esummary protocol with
the empty-idlist short-circuit; every raised exception is converted by the
broad `except` into `HTTPException(500, f"PubMed search failed: {e}")`. -/
def search_pubmed (env : PubmedEnv) (query : String) (maxResults now : Nat) :
    Except PyErr SearchResponse :=
  match env.esearch with
  | .error e => .error (.http ⟨500, "PubMed search failed: " ++ e⟩)
  | .ok sdata =>
    if pubmedIds sdata = [] then
      .ok { provider := "pubmed", query := query,
            content := "No results found.", citations := [],
            timestamp := now }
    else
      match env.esummary with
      | .error e => .error (.http ⟨500, "PubMed search failed: " ++ e⟩)
      | .ok fdata =>
        match pubmedItems (pubmedIds sdata) (fdata.result.getD []) with
        | .error e =>
          .error (.http ⟨500, "PubMed search failed: " ++ pyErrStr e⟩)
        | .ok items =>
          .ok { provider := "pubmed", query := query,
                content := String.intercalate "\n\n" (items.map Prod.snd),
                citations := items.map Prod.fst, timestamp := now }

/-! ### Session state and login flows -/

/-- The two session flags of the process-wide `MedicalScraper` object. -/
structure ScraperState where
  logged_in_uptodate : Bool
  logged_in_mksap : Bool
deriving Repr, DecidableEq

/-- Environment of `login_uptodate`: whether the browser starts, and the
outcome of the scripted navigate/fill/submit sequence (an `error` is any
raised exception: timeout, selector mismatch, network failure). -/
structure UtdLoginEnv where
  browserOk : Bool
  loginSteps : Except String Unit

/-- Model of `MedicalScraper.login_uptodate`: returns the success boolean and the
updated scraper state; every exception is caught. -/
def login_uptodate (st : ScraperState) (env : UtdLoginEnv) :
    Bool × ScraperState :=
  if env.browserOk = false then (false, st)
  else
    match env.loginSteps with
    | .error _ => (false, st)
    | .ok _ => (true, { st with logged_in_uptodate := true })

/-- Environment of `login_mksap`.  The selector loops swallow their own
exceptions, so whether a username/password field or submit button was
actually found and filled (`usernameFilled`/`passwordFilled`/
`submitClicked`) cannot abort the flow. -/
structure MksapLoginEnv where
  browserOk : Bool
  navSteps : Except String Unit
  usernameFilled : Bool
  passwordFilled : Bool
  submitClicked : Bool
  finalWait : Except String Unit
  currentUrl : String

/-- Model of `MedicalScraper.login_mksap`.  After the final wait the source checks
`current_url` for a logged-in indicator, but both branches set
`logged_in_mksap = True` and return `True` (the else branch is the literal
`# Assume success if no error` line). -/
def login_mksap (st : ScraperState) (env : MksapLoginEnv) :
    Bool × ScraperState :=
  if env.browserOk = false then (false, st)
  else
    match env.navSteps with
    | .error _ => (false, st)
    | .ok _ =>
      match env.finalWait with
      | .error _ => (false, st)
      | .ok _ =>
        if pyIn "mksap19" env.currentUrl ||
            pyIn "dashboard" (pyLower env.currentUrl) then
          (true, { st with logged_in_mksap := true })
        else
          (true, { st with logged_in_mksap := true })

/-! ### UpToDate search (`MedicalScraper.search_uptodate`) -/

/-- One hit extracted from the UpToDate search results page: the text of
the located title element (none when no element matched), the raw href,
and the stripped text used as snippet. -/
structure UtdHit where
  title : Option String
  href : String
  snippet : String
deriving Repr, DecidableEq

/-- Model of the url fixup: when the href is nonempty and does not start
with "http", the UpToDate origin is prepended. -/
def utdFixUrl (url : String) : String :=
  if url ≠ "" && !pyStartsWith url "http" then
    "https://www.uptodate.com" ++ url
  else url

/-- The citation built for hit `i`, title truncated to 200 characters. -/
def utdCitation (i : Nat) (h : UtdHit) : Citation :=
  { id := "uptodate-" ++ Nat.repr i
    title := pyTake 200 (h.title.getD ("UpToDate Result " ++ Nat.repr (i + 1)))
    source := "UpToDate"
    url := some (utdFixUrl h.href)
    snippet := some h.snippet }

def utdCitations (hits : List UtdHit) : List Citation :=
  hits.enum.map (fun ih => utdCitation ih.1 ih.2)

/-- The block appended to `content_parts` for one hit (untruncated title). -/
def utdContentPart (i : Nat) (h : UtdHit) : String :=
  "**" ++ h.title.getD ("UpToDate Result " ++ Nat.repr (i + 1)) ++ "**\n" ++
    h.snippet

def utdContentParts (hits : List UtdHit) : List String :=
  hits.enum.map (fun ih => utdContentPart ih.1 ih.2)

/-- Environment of `search_uptodate`: whether the browser starts, the
outcome of navigating/parsing the search page (already reduced to the list
of extracted hits), and the outcome of the secondary full-article fetch
(`error` = exception raised and caught by the inner `try`; `ok none` = no
main content element found; `ok (some md)` = markdown of the article). -/
structure UtdSearchEnv where
  browserOk : Bool
  searchPage : Except String (List UtdHit)
  articleFetch : Except String (Option String)

/-- Model of `MedicalScraper.search_uptodate`.  The second component of the result
is the trace of browser/network operations actually issued, in order. -/
def search_uptodate (st : ScraperState) (env : UtdSearchEnv) (query : String)
    (maxResults now : Nat) : Except PyErr SearchResponse × List String :=
  if st.logged_in_uptodate = false then
    (.error (.http ⟨401, "Not logged into UpToDate. Please login first."⟩), [])
  else if env.browserOk = false then
    (.error (.http ⟨500, "Browser not available"⟩), ["start_browser"])
  else
    match env.searchPage with
    | .error e =>
      (.error (.http ⟨500, "UpToDate search failed: " ++ e⟩),
       ["start_browser", "goto search page"])
    | .ok hits =>
      let citations := utdCitations (hits.take maxResults)
      let parts := utdContentParts (hits.take maxResults)
      match citations with
      | [] =>
        (.ok { provider := "uptodate", query := query,
               content := String.intercalate divider parts,
               citations := citations, timestamp := now },
         ["start_browser", "goto search page"])
      | c0 :: _ =>
        if c0.url.getD "" ≠ "" then
          let firstContent := match env.articleFetch with
            | .error _ => ""
            | .ok none => ""
            | .ok (some md) => pyTake 8000 md
          (.ok { provider := "uptodate", query := query,
                 content := if firstContent ≠ "" then firstContent
                   else String.intercalate divider parts,
                 citations := citations, timestamp := now },
           ["start_browser", "goto search page", "goto first result"])
        else
          (.ok { provider := "uptodate", query := query,
                 content := String.intercalate divider parts,
                 citations := citations, timestamp := now },
           ["start_browser", "goto search page"])

/-! ### MKSAP search (`MedicalScraper.search_mksap`) -/

/-- One link extracted from the MKSAP search results page: its stripped
text, raw href, and the stripped text of its parent container (none when
`find_parent` fails). -/
structure MksapHit where
  text : String
  href : String
  parentText : Option String
deriving Repr, DecidableEq

def mksapFixUrl (url : String) : String :=
  if url ≠ "" && !pyStartsWith url "http" then
    "https://mksap19.acponline.org" ++ url
  else url

def mksapCitation (i : Nat) (h : MksapHit) : Citation :=
  { id := "mksap-" ++ Nat.repr i
    title := pyTake 200 h.text
    source := "MKSAP 19"
    url := some (mksapFixUrl h.href)
    snippet := some (match h.parentText with
      | some p => pyTake 300 p
      | none => pyTake 200 h.text) }

def mksapContentPart (h : MksapHit) : String :=
  "**" ++ pyTake 200 h.text ++ "**\n" ++
    (match h.parentText with
     | some p => pyTake 300 p
     | none => pyTake 200 h.text)

structure MksapSearchEnv where
  browserOk : Bool
  searchPage : Except String (List MksapHit)

/-- Model of `MedicalScraper.search_mksap`, with the same operation trace as
`search_uptodate`. -/
def search_mksap (st : ScraperState) (env : MksapSearchEnv) (query : String)
    (maxResults now : Nat) : Except PyErr SearchResponse × List String :=
  if st.logged_in_mksap = false then
    (.error (.http ⟨401, "Not logged into MKSAP. Please login first."⟩), [])
  else if env.browserOk = false then
    (.error (.http ⟨500, "Browser not available"⟩), ["start_browser"])
  else
    match env.searchPage with
    | .error e =>
      (.error (.http ⟨500, "MKSAP search failed: " ++ e⟩),
       ["start_browser", "goto search page"])
    | .ok hits =>
      (.ok { provider := "mksap", query := query,
             content := String.intercalate divider
               ((hits.take maxResults).map mksapContentPart),
             citations := (hits.take maxResults).enum.map
               (fun ih => mksapCitation ih.1 ih.2),
             timestamp := now },
       ["start_browser", "goto search page"])

/-! ### Aggregation (`/search/aggregate` endpoint) -/

/-- Everything the aggregate call depends on: which API keys are present
in the environment, the scraper session flags at request time, and the
upstream data each eligible provider call would observe. -/
structure AggEnv where
  perplexity_key : Bool
  exa_key : Bool
  tavily_key : Bool
  logged_in_uptodate : Bool
  logged_in_mksap : Bool
  pubmed : PubmedEnv
  pplx : Upstream PplxUpstream
  exa : Upstream (List ExaRaw)
  tavily : Upstream TavilyData

/-- The task list built by `aggregate_search`: PubMed always, the three
keyed providers only when their key is configured.  The authenticated
providers (uptodate/mksap) are never added, whatever the session flags
say. -/
def aggTasks (req : SearchRequest) (env : AggEnv) (now : Nat) :
    List (String × Except PyErr SearchResponse) :=
  [("pubmed", search_pubmed env.pubmed req.query req.max_results now)]
    ++ (if env.perplexity_key then
          [("perplexity", search_perplexity req.query true
            req.perplexity_model true env.pplx now)]
        else [])
    ++ (if env.exa_key then
          [("exa", search_exa req.query req.max_results true env.exa now)]
        else [])
    ++ (if env.tavily_key then
          [("tavily", search_tavily req.query req.max_results true
            env.tavily now)]
        else [])

/-- The results dict in iteration order. -/
def okEntries (ts : List (String × Except PyErr SearchResponse)) :
    List (String × SearchResponse) :=
  ts.filterMap (fun pe => match pe.2 with
    | .ok r => some (pe.1, r)
    | .error _ => none)

/-- The errors dict in iteration order; values are rendered by `str(e)`. -/
def errEntries (ts : List (String × Except PyErr SearchResponse)) :
    List (String × String) :=
  ts.filterMap (fun pe => match pe.2 with
    | .ok _ => none
    | .error e => some (pe.1, pyErrStr e))

structure AggregateResponse where
  query : String
  sources : List (String × SearchResponse)
  errors : List (String × String)
  combined_content : String
  all_citations : List Citation
  timestamp : Nat
deriving Repr, DecidableEq

/-- The `/search/aggregate` endpoint (`aggregate_search`): every task is
awaited under `try/except Exception`, successes and failures are
partitioned, then contents and citations of the successes are merged in
attempt order. -/
def aggregate_search (req : SearchRequest) (env : AggEnv) (now : Nat) :
    AggregateResponse :=
  let ts := aggTasks req env now
  { query := req.query
    sources := okEntries ts
    errors := errEntries ts
    combined_content := String.intercalate divider
      (((okEntries ts).filter (fun pr => pr.2.content ≠ "")).map
        (fun pr => "## From " ++ pyTitle pr.1 ++ "\n\n" ++ pr.2.content))
    all_citations := ((okEntries ts).map (fun pr => pr.2.citations)).flatten
    timestamp := now }

/-! ### Decimal rendering: a specification of `Nat.repr` used to prove the
citation-id uniqueness facts -/

/-- The decimal digit characters of `n`, most significant first. -/
def decChars (n : Nat) : List Char :=
  if _h : n < 10 then [Nat.digitChar n]
  else decChars (n / 10) ++ [Nat.digitChar (n % 10)]
decreasing_by exact Nat.div_lt_self (by omega) (by omega)

/-- Decode a decimal character list back to the number. -/
def decodeDec (l : List Char) : Nat :=
  l.foldl (fun a c => a * 10 + (c.toNat - 48)) 0

/-- Citation lists whose ids are exactly a duplicate-free suffix list under
one provider tag.  Used to assemble the global id-uniqueness invariant. -/
def TaggedIds (tag : String) (cs : List Citation) : Prop :=
  ∃ suf : List String,
    cs.map (fun c => c.id) = suf.map (fun s => tag ++ s) ∧ suf.Nodup

/-- The pmid list the pubmed provider iterates over for a given
environment (empty when the esearch call itself raises). -/
def pubmedAttemptIds (env : PubmedEnv) : List String :=
  match env.esearch with
  | .ok d => pubmedIds d
  | .error _ => []

/-- The citations a settled provider task contributes to `all_citations`. -/
def blockOf (o : Except PyErr SearchResponse) : List Citation :=
  match o with
  | .ok r => r.citations
  | .error _ => []

/-- The citations contributed by a provider that is attempted only when
its key flag is set. -/
def keyBlock (key : Bool) (o : Except PyErr SearchResponse) : List Citation :=
  if key then blockOf o else []

/-! ### Concrete sample environments used for counterexamples and
witnesses -/

def sampleArticle : PubmedArticle :=
  { title := some "Landmark Trial", authors := some [{ name := some "Doe J" }],
    source := some "NEJM", pubdate := some "2020 Jan" }

/-- A pubmed upstream whose esearch idlist repeats one pmid. -/
def dupPubmedEnv : PubmedEnv :=
  { esearch := .ok { esearchresult := some { idlist := some ["1", "1"] } },
    esummary := .ok { result := some [("1", sampleArticle)] } }

def okPubmedEnv : PubmedEnv :=
  { esearch := .ok { esearchresult := some { idlist := some ["11", "22"] } },
    esummary := .ok { result := some [("11", sampleArticle),
      ("22", sampleArticle)] } }

/-- An aggregate environment where only PubMed is keyed and its idlist has
a duplicate. -/
def dupAggEnv : AggEnv :=
  { perplexity_key := false, exa_key := false, tavily_key := false,
    logged_in_uptodate := false, logged_in_mksap := false,
    pubmed := dupPubmedEnv, pplx := .httpError 500, exa := .httpError 500,
    tavily := .httpError 500 }

/-- An aggregate environment where all four attemptable providers
succeed. -/
def okAggEnv : AggEnv :=
  { perplexity_key := true, exa_key := true, tavily_key := true,
    logged_in_uptodate := false, logged_in_mksap := false,
    pubmed := okPubmedEnv,
    pplx := .ok ⟨some [⟨some ⟨some "Answer text"⟩⟩],
      some [.str "https://pubmed.ncbi.nlm.nih.gov/1/",
        .obj (some "T") (some "https://x/y")]⟩,
    exa := .ok [⟨some "E1", some "https://nejm.org/a", some ["h"],
      some "t"⟩],
    tavily := .ok ⟨some [⟨none, none, some "c"⟩], some "ans"⟩ }

/-- An aggregate environment with an authenticated UpToDate/MKSAP session
but no API keys; the pubmed upstream is down. -/
def authAggEnv : AggEnv :=
  { perplexity_key := false, exa_key := false, tavily_key := false,
    logged_in_uptodate := true, logged_in_mksap := true,
    pubmed := ⟨.error "connection refused", .error "connection refused"⟩,
    pplx := .transportError "x", exa := .transportError "x",
    tavily := .transportError "x" }

def sampleRequest : SearchRequest :=
  { query := "sepsis", max_results := 5, perplexity_model := "sonar-pro" }

/-- MKSAP login environment where no username/password selector matched
and no submit button was clicked (a plain selector-mismatch failure), yet
navigation itself raised nothing and the final URL is an SSO error page. -/
def mksapBadEnv : MksapLoginEnv :=
  { browserOk := true, navSteps := .ok (), usernameFilled := false,
    passwordFilled := false, submitClicked := false, finalWait := .ok (),
    currentUrl := "https://sso.acponline.org/loginerror" }

/-- UpToDate search environment with one hit whose full-article fetch
raises. -/
def utdFallbackEnv : UtdSearchEnv :=
  { browserOk := true,
    searchPage := .ok [⟨some "Sepsis in adults", "/contents/sepsis",
      "Sepsis overview snippet"⟩],
    articleFetch := .error "navigation timeout" }

def c10req1 : SearchRequest :=
  { query := "sepsis", max_results := 5, perplexity_model := "sonar-pro" }

def c10req2 : SearchRequest :=
  { query := "sepsis", max_results := 99, perplexity_model := "sonar-pro" }

/-- A Perplexity upstream body carrying seven citations. -/
def c10up : Upstream PplxUpstream :=
  .ok ⟨some [⟨some ⟨some "answer"⟩⟩],
    some [.str "u1", .str "u2", .str "u3", .str "u4", .str "u5", .str "u6",
      .str "u7"]⟩

/-! ## Theorems -/

/-! ### `Nat.repr` is injective -/

theorem toDigitsCore_eq_decChars :
    ∀ n fuel, n < fuel → ∀ ds : List Char,
      Nat.toDigitsCore 10 fuel n ds = decChars n ++ ds := by
  intro n
  induction n using Nat.strong_induction_on with
  | _ n ih =>
    intro fuel hf ds
    match fuel, hf with
    | fuel + 1, hf =>
      by_cases h : n / 10 = 0
      · have hn : n < 10 := by omega
        rw [decChars]
        simp [Nat.toDigitsCore, h, Nat.mod_eq_of_lt hn, hn]
      · have hpos : 0 < n := by
          rcases Nat.eq_zero_or_pos n with h0 | h0
          · exact absurd (by simp [h0]) h
          · exact h0
        have hdiv : n / 10 < n := Nat.div_lt_self hpos (by omega)
        have hfuel : n / 10 < fuel := by omega
        have hge : ¬ n < 10 := by
          intro hlt
          exact h (Nat.div_eq_of_lt hlt)
        rw [decChars]
        simp only [Nat.toDigitsCore, h, if_false, hge, dif_neg]
        rw [ih (n / 10) hdiv fuel hfuel]
        simp

theorem repr_eq_decChars (n : Nat) : (Nat.repr n).data = decChars n := by
  show (Nat.toDigits 10 n).asString.data = decChars n
  rw [Nat.toDigits, toDigitsCore_eq_decChars n (n + 1) (Nat.lt_succ_self n)]
  simp [List.asString]

theorem digitChar_decode : ∀ d, d < 10 → (Nat.digitChar d).toNat - 48 = d := by
  decide

theorem decodeDec_decChars : ∀ n, decodeDec (decChars n) = n := by
  intro n
  induction n using Nat.strong_induction_on with
  | _ n ih =>
    by_cases h : n < 10
    · rw [decChars]
      simp only [h, dif_pos]
      show 0 * 10 + ((Nat.digitChar n).toNat - 48) = n
      rw [digitChar_decode n h]
      omega
    · have hpos : 0 < n := by omega
      have hdiv : n / 10 < n := Nat.div_lt_self hpos (by omega)
      rw [decChars]
      simp only [h, dif_neg, not_false_iff]
      show decodeDec (decChars (n / 10) ++ [Nat.digitChar (n % 10)]) = n
      rw [decodeDec, List.foldl_append]
      have hm : n % 10 < 10 := Nat.mod_lt n (by omega)
      have := ih (n / 10) hdiv
      rw [decodeDec] at this
      simp only [this, List.foldl_cons, List.foldl_nil]
      rw [digitChar_decode (n % 10) hm]
      omega

theorem repr_injective : Function.Injective Nat.repr := by
  intro a b h
  have hd : decChars a = decChars b := by
    rw [← repr_eq_decChars, ← repr_eq_decChars, h]
  have := congrArg decodeDec hd
  rwa [decodeDec_decChars, decodeDec_decChars] at this

/-! ### Tagged strings: cancellation and disjointness -/

theorem tag_append_inj (tag : String) {a b : String}
    (h : tag ++ a = tag ++ b) : a = b := by
  have hd := congrArg String.data h
  rw [String.data_append, String.data_append] at hd
  exact String.ext (List.append_cancel_left hd)

theorem tag_append_ne (t₁ t₂ : String) (k : Nat)
    (hk₁ : k < t₁.data.length) (hk₂ : k < t₂.data.length)
    (hne : t₁.data[k]? ≠ t₂.data[k]?) :
    ∀ a b : String, t₁ ++ a ≠ t₂ ++ b := by
  intro a b h
  have hd := congrArg String.data h
  rw [String.data_append, String.data_append] at hd
  have := congrArg (fun l => l[k]?) hd
  simp only at this
  rw [List.getElem?_append, List.getElem?_append, if_pos hk₁, if_pos hk₂]
    at this
  exact hne this

theorem nodup_map_tag (tag : String) {suf : List String} (h : suf.Nodup) :
    (suf.map (fun s => tag ++ s)).Nodup :=
  h.map (fun _ _ hab => tag_append_inj tag hab)

theorem nodup_map_repr {l : List Nat} (h : l.Nodup) :
    (l.map Nat.repr).Nodup :=
  h.map (fun _ _ hab => repr_injective hab)

/-! ### Per-provider citation id shape -/

theorem pplxCitation_id (i : Nat) (c : PplxRawCitation) :
    (pplxCitation i c).id = "pplx-" ++ Nat.repr i := by
  cases c <;> rfl

theorem taggedIds_pplxCitations (raw : List PplxRawCitation) :
    TaggedIds "pplx-" (pplxCitations raw) := by
  refine ⟨(List.range' 0 raw.length).map Nat.repr, ?_, ?_⟩
  · rw [pplxCitations, List.map_map, List.map_map]
    have h1 : ((fun c => c.id) ∘ fun ic : Nat × PplxRawCitation =>
        pplxCitation ic.1 ic.2) =
        (fun s => "pplx-" ++ s) ∘ Nat.repr ∘ Prod.fst := by
      funext ic
      exact pplxCitation_id ic.1 ic.2
    rw [h1, List.enum_eq_enumFrom, ← List.enumFrom_map_fst 0 raw,
      List.map_map]
    rfl
  · exact nodup_map_repr (List.nodup_range' _ _)

theorem exaCitation_id (i : Nat) (r : ExaRaw) (c : Citation)
    (h : exaCitation i r = .ok c) : c.id = "exa-" ++ Nat.repr i := by
  unfold exaCitation at h
  split at h
  · exact absurd h (by simp)
  · simp only [Except.ok.injEq] at h
    subst h
    rfl

theorem exaCitationsFrom_ids :
    ∀ (rs : List ExaRaw) (i : Nat) (cs : List Citation),
      exaCitationsFrom i rs = .ok cs →
      cs.map (fun c => c.id) =
        (List.range' i rs.length).map (fun k => "exa-" ++ Nat.repr k) := by
  intro rs
  induction rs with
  | nil =>
    intro i cs h
    simp only [exaCitationsFrom, Except.ok.injEq] at h
    subst h
    simp
  | cons r rt ih =>
    intro i cs h
    unfold exaCitationsFrom at h
    cases hc : exaCitation i r with
    | error e => rw [hc] at h; exact absurd h (by simp)
    | ok c =>
      rw [hc] at h
      cases hrest : exaCitationsFrom (i + 1) rt with
      | error e => rw [hrest] at h; exact absurd h (by simp)
      | ok cs' =>
        rw [hrest] at h
        simp only [Except.ok.injEq] at h
        subst h
        rw [List.length_cons, List.range'_succ, List.map_cons, List.map_cons,
          exaCitation_id i r c hc, ih (i + 1) cs' hrest]

theorem taggedIds_exaCitations (rs : List ExaRaw) (cs : List Citation)
    (h : exaCitations rs = .ok cs) : TaggedIds "exa-" cs := by
  refine ⟨(List.range' 0 rs.length).map Nat.repr, ?_, ?_⟩
  · rw [exaCitationsFrom_ids rs 0 cs h, List.map_map]
    rfl
  · exact nodup_map_repr (List.nodup_range' _ _)

theorem tavilyCitation_id (i : Nat) (r : TavilyRaw) (c : Citation)
    (h : tavilyCitation i r = .ok c) : c.id = "tavily-" ++ Nat.repr i := by
  unfold tavilyCitation at h
  split at h
  · exact absurd h (by simp)
  · simp only [Except.ok.injEq] at h
    subst h
    rfl

theorem tavilyCitationsFrom_ids :
    ∀ (rs : List TavilyRaw) (i : Nat) (cs : List Citation),
      tavilyCitationsFrom i rs = .ok cs →
      cs.map (fun c => c.id) =
        (List.range' i rs.length).map (fun k => "tavily-" ++ Nat.repr k) := by
  intro rs
  induction rs with
  | nil =>
    intro i cs h
    simp only [tavilyCitationsFrom, Except.ok.injEq] at h
    subst h
    simp
  | cons r rt ih =>
    intro i cs h
    unfold tavilyCitationsFrom at h
    cases hc : tavilyCitation i r with
    | error e => rw [hc] at h; exact absurd h (by simp)
    | ok c =>
      rw [hc] at h
      cases hrest : tavilyCitationsFrom (i + 1) rt with
      | error e => rw [hrest] at h; exact absurd h (by simp)
      | ok cs' =>
        rw [hrest] at h
        simp only [Except.ok.injEq] at h
        subst h
        rw [List.length_cons, List.range'_succ, List.map_cons, List.map_cons,
          tavilyCitation_id i r c hc, ih (i + 1) cs' hrest]

theorem taggedIds_tavilyCitations (rs : List TavilyRaw) (cs : List Citation)
    (h : tavilyCitations rs = .ok cs) : TaggedIds "tavily-" cs := by
  refine ⟨(List.range' 0 rs.length).map Nat.repr, ?_, ?_⟩
  · rw [tavilyCitationsFrom_ids rs 0 cs h, List.map_map]
    rfl
  · exact nodup_map_repr (List.nodup_range' _ _)

theorem pubmedItem_id (pmid : String) (a : PubmedArticle)
    (it : Citation × String) (h : pubmedItem pmid a = .ok it) :
    it.1.id = "pubmed-" ++ pmid := by
  unfold pubmedItem at h
  split at h
  · exact absurd h (by simp)
  · simp only [Except.ok.injEq] at h
    subst h
    rfl

theorem pubmedItems_ids :
    ∀ (ids : List String) (rm : List (String × PubmedArticle))
      (items : List (Citation × String)),
      pubmedItems ids rm = .ok items →
      items.map (fun it => it.1.id) =
        (ids.filter (fun p => (List.lookup p rm).isSome)).map
          (fun p => "pubmed-" ++ p) := by
  intro ids
  induction ids with
  | nil =>
    intro rm items h
    simp only [pubmedItems, Except.ok.injEq] at h
    subst h
    simp
  | cons pmid rest ih =>
    intro rm items h
    unfold pubmedItems at h
    split at h
    next hl =>
      rw [List.filter_cons_of_neg (by simp [hl])]
      exact ih rm items h
    next a hl =>
      split at h
      next e hit => simp at h
      next it hit =>
        split at h
        next e2 hrest => simp at h
        next its hrest =>
          simp only [Except.ok.injEq] at h
          subst h
          rw [List.filter_cons_of_pos (by simp [hl]), List.map_cons,
            List.map_cons, pubmedItem_id pmid a it hit, ih rm its hrest]

theorem taggedIds_nil (tag : String) : TaggedIds tag [] :=
  ⟨[], by simp, List.nodup_nil⟩

theorem taggedIds_search_pubmed (env : PubmedEnv) (q : String) (k now : Nat)
    (r : SearchResponse) (h : search_pubmed env q k now = .ok r)
    (hn : (pubmedAttemptIds env).Nodup) : TaggedIds "pubmed-" r.citations := by
  unfold search_pubmed at h
  split at h
  next e he => simp at h
  next sdata he =>
    have hids : pubmedAttemptIds env = pubmedIds sdata := by
      unfold pubmedAttemptIds
      rw [he]
    split at h
    next hempty =>
      simp only [Except.ok.injEq] at h
      subst h
      exact taggedIds_nil _
    next hempty =>
      split at h
      next e hs => simp at h
      next fdata hs =>
        split at h
        next e hi => simp at h
        next items hi =>
          simp only [Except.ok.injEq] at h
          subst h
          refine ⟨(pubmedIds sdata).filter
            (fun p => (List.lookup p (fdata.result.getD [])).isSome), ?_, ?_⟩
          · show (items.map Prod.fst).map (fun c => c.id) = _
            rw [List.map_map]
            exact pubmedItems_ids (pubmedIds sdata) (fdata.result.getD [])
              items hi
          · rw [hids] at hn
            exact hn.filter _

theorem taggedIds_search_perplexity (q : String) (mf : Bool) (model : String)
    (hk : Bool) (up : Upstream PplxUpstream) (now : Nat) (r : SearchResponse)
    (h : search_perplexity q mf model hk up now = .ok r) :
    TaggedIds "pplx-" r.citations := by
  unfold search_perplexity at h
  split at h
  · simp at h
  · split at h
    · simp at h
    · simp at h
    · split at h
      · simp at h
      · simp only [Except.ok.injEq] at h
        subst h
        exact taggedIds_pplxCitations _

theorem taggedIds_search_exa (q : String) (k : Nat) (hk : Bool)
    (up : Upstream (List ExaRaw)) (now : Nat) (r : SearchResponse)
    (h : search_exa q k hk up now = .ok r) : TaggedIds "exa-" r.citations := by
  unfold search_exa at h
  split at h
  · simp at h
  · split at h
    · simp at h
    · simp at h
    · split at h
      · simp at h
      · next rs _ cs hcs =>
        simp only [Except.ok.injEq] at h
        subst h
        exact taggedIds_exaCitations rs cs hcs

theorem taggedIds_search_tavily (q : String) (k : Nat) (hk : Bool)
    (up : Upstream TavilyData) (now : Nat) (r : SearchResponse)
    (h : search_tavily q k hk up now = .ok r) :
    TaggedIds "tavily-" r.citations := by
  unfold search_tavily at h
  split at h
  · simp at h
  · split at h
    · simp at h
    · simp at h
    · split at h
      · simp at h
      · next d _ cs hcs =>
        simp only [Except.ok.injEq] at h
        subst h
        exact taggedIds_tavilyCitations _ cs hcs

/-! ### Tag disjointness instances -/

theorem ne_pubmed_pplx : ∀ a b : String, "pubmed-" ++ a ≠ "pplx-" ++ b :=
  tag_append_ne "pubmed-" "pplx-" 1 (by decide) (by decide) (by decide)

theorem ne_pubmed_exa : ∀ a b : String, "pubmed-" ++ a ≠ "exa-" ++ b :=
  tag_append_ne "pubmed-" "exa-" 0 (by decide) (by decide) (by decide)

theorem ne_pubmed_tavily : ∀ a b : String, "pubmed-" ++ a ≠ "tavily-" ++ b :=
  tag_append_ne "pubmed-" "tavily-" 0 (by decide) (by decide) (by decide)

theorem ne_pplx_exa : ∀ a b : String, "pplx-" ++ a ≠ "exa-" ++ b :=
  tag_append_ne "pplx-" "exa-" 0 (by decide) (by decide) (by decide)

theorem ne_pplx_tavily : ∀ a b : String, "pplx-" ++ a ≠ "tavily-" ++ b :=
  tag_append_ne "pplx-" "tavily-" 0 (by decide) (by decide) (by decide)

theorem ne_exa_tavily : ∀ a b : String, "exa-" ++ a ≠ "tavily-" ++ b :=
  tag_append_ne "exa-" "tavily-" 0 (by decide) (by decide) (by decide)

/-- Disjointness of two tagged id blocks, given the tags can never agree. -/
theorem tagged_disjoint {t₁ t₂ : String} {s₁ s₂ : List String}
    (hne : ∀ a b : String, t₁ ++ a ≠ t₂ ++ b) :
    (s₁.map (fun s => t₁ ++ s)).Disjoint (s₂.map (fun s => t₂ ++ s)) := by
  intro x hx hy
  obtain ⟨a, _, rfl⟩ := List.mem_map.mp hx
  obtain ⟨b, _, hba⟩ := List.mem_map.mp hy
  exact hne a b hba.symm

/-- Merging the four provider citation blocks in attempt order keeps ids
globally duplicate-free. -/
theorem four_block_nodup (b₁ b₂ b₃ b₄ : List Citation)
    (h₁ : TaggedIds "pubmed-" b₁) (h₂ : TaggedIds "pplx-" b₂)
    (h₃ : TaggedIds "exa-" b₃) (h₄ : TaggedIds "tavily-" b₄) :
    ((b₁ ++ (b₂ ++ (b₃ ++ b₄))).map (fun c => c.id)).Nodup := by
  obtain ⟨s₁, e₁, n₁⟩ := h₁
  obtain ⟨s₂, e₂, n₂⟩ := h₂
  obtain ⟨s₃, e₃, n₃⟩ := h₃
  obtain ⟨s₄, e₄, n₄⟩ := h₄
  rw [List.map_append, List.map_append, List.map_append, e₁, e₂, e₃, e₄]
  rw [List.nodup_append, List.nodup_append, List.nodup_append]
  refine ⟨nodup_map_tag _ n₁, ⟨nodup_map_tag _ n₂,
    ⟨nodup_map_tag _ n₃, nodup_map_tag _ n₄, tagged_disjoint ne_exa_tavily⟩,
    ?_⟩, ?_⟩
  · intro x hx hy
    rcases List.mem_append.mp hy with hy' | hy'
    · exact tagged_disjoint ne_pplx_exa hx hy'
    · exact tagged_disjoint ne_pplx_tavily hx hy'
  · intro x hx hy
    rcases List.mem_append.mp hy with hy' | hy'
    · exact tagged_disjoint ne_pubmed_pplx hx hy'
    rcases List.mem_append.mp hy' with hy'' | hy''
    · exact tagged_disjoint ne_pubmed_exa hx hy''
    · exact tagged_disjoint ne_pubmed_tavily hx hy''

/-! ### Key partition of the aggregate task list -/

theorem okEntries_keys_subset (ts : List (String × Except PyErr SearchResponse))
    (p : String) (h : p ∈ (okEntries ts).map Prod.fst) :
    p ∈ ts.map Prod.fst := by
  induction ts with
  | nil => simp [okEntries] at h
  | cons t rest ih =>
    cases ho : t.2 with
    | ok r =>
      rw [okEntries, List.filterMap_cons, ho] at h
      simp only [List.map_cons, List.mem_cons] at h ⊢
      rcases h with h | h
      · exact Or.inl h
      · exact Or.inr (ih h)
    | error e =>
      rw [okEntries, List.filterMap_cons, ho] at h
      simp only [List.map_cons, List.mem_cons]
      exact Or.inr (ih h)

theorem errEntries_keys_subset (ts : List (String × Except PyErr SearchResponse))
    (p : String) (h : p ∈ (errEntries ts).map Prod.fst) :
    p ∈ ts.map Prod.fst := by
  induction ts with
  | nil => simp [errEntries] at h
  | cons t rest ih =>
    cases ho : t.2 with
    | ok r =>
      rw [errEntries, List.filterMap_cons, ho] at h
      simp only [List.map_cons, List.mem_cons]
      exact Or.inr (ih h)
    | error e =>
      rw [errEntries, List.filterMap_cons, ho] at h
      simp only [List.map_cons, List.mem_cons] at h ⊢
      rcases h with h | h
      · exact Or.inl h
      · exact Or.inr (ih h)

theorem keys_cover (ts : List (String × Except PyErr SearchResponse))
    (p : String) :
    p ∈ ts.map Prod.fst ↔
      p ∈ (okEntries ts).map Prod.fst ∨ p ∈ (errEntries ts).map Prod.fst := by
  induction ts with
  | nil => simp [okEntries, errEntries]
  | cons t rest ih =>
    cases ho : t.2 with
    | ok r =>
      rw [okEntries, errEntries, List.filterMap_cons, List.filterMap_cons, ho]
      simp only [List.map_cons, List.mem_cons]
      rw [okEntries, errEntries] at ih
      constructor
      · intro h
        rcases h with h | h
        · exact Or.inl (Or.inl h)
        · rcases (ih.mp h) with h' | h'
          · exact Or.inl (Or.inr h')
          · exact Or.inr h'
      · intro h
        rcases h with (h | h) | h
        · exact Or.inl h
        · exact Or.inr (ih.mpr (Or.inl h))
        · exact Or.inr (ih.mpr (Or.inr h))
    | error e =>
      rw [okEntries, errEntries, List.filterMap_cons, List.filterMap_cons, ho]
      simp only [List.map_cons, List.mem_cons]
      rw [okEntries, errEntries] at ih
      constructor
      · intro h
        rcases h with h | h
        · exact Or.inr (Or.inl h)
        · rcases (ih.mp h) with h' | h'
          · exact Or.inl h'
          · exact Or.inr (Or.inr h')
      · intro h
        rcases h with h | (h | h)
        · exact Or.inr (ih.mpr (Or.inl h))
        · exact Or.inl h
        · exact Or.inr (ih.mpr (Or.inr h))

theorem keys_disjoint (ts : List (String × Except PyErr SearchResponse))
    (hnd : (ts.map Prod.fst).Nodup) (p : String) :
    ¬(p ∈ (okEntries ts).map Prod.fst ∧ p ∈ (errEntries ts).map Prod.fst) := by
  induction ts with
  | nil => simp [okEntries]
  | cons t rest ih =>
    rw [List.map_cons, List.nodup_cons] at hnd
    obtain ⟨hhead, hrest⟩ := hnd
    rintro ⟨hok, herr⟩
    cases ho : t.2 with
    | ok r =>
      rw [okEntries, List.filterMap_cons, ho] at hok
      rw [errEntries, List.filterMap_cons, ho] at herr
      simp only [List.map_cons, List.mem_cons] at hok
      rcases hok with rfl | hok
      · exact hhead (errEntries_keys_subset rest _ herr)
      · exact ih hrest ⟨hok, herr⟩
    | error e =>
      rw [okEntries, List.filterMap_cons, ho] at hok
      rw [errEntries, List.filterMap_cons, ho] at herr
      simp only [List.map_cons, List.mem_cons] at herr
      rcases herr with rfl | herr
      · exact hhead (okEntries_keys_subset rest _ hok)
      · exact ih hrest ⟨hok, herr⟩

theorem aggTasks_keys (req : SearchRequest) (env : AggEnv) (now : Nat) :
    (aggTasks req env now).map Prod.fst =
      ["pubmed"] ++ (if env.perplexity_key then ["perplexity"] else [])
        ++ (if env.exa_key then ["exa"] else [])
        ++ (if env.tavily_key then ["tavily"] else []) := by
  unfold aggTasks
  cases env.perplexity_key <;> cases env.exa_key <;> cases env.tavily_key <;>
    simp

theorem aggTasks_keys_nodup (req : SearchRequest) (env : AggEnv) (now : Nat) :
    ((aggTasks req env now).map Prod.fst).Nodup := by
  rw [aggTasks_keys]
  cases env.perplexity_key <;> cases env.exa_key <;> cases env.tavily_key <;>
    simp

/-- The merged all_citations list decomposes into the four provider blocks
in attempt
order. -/
theorem allCitations_blocks (req : SearchRequest) (env : AggEnv) (now : Nat) :
    (aggregate_search req env now).all_citations =
      blockOf (search_pubmed env.pubmed req.query req.max_results now) ++
        (keyBlock env.perplexity_key (search_perplexity req.query true
            req.perplexity_model true env.pplx now) ++
          (keyBlock env.exa_key (search_exa req.query req.max_results true
              env.exa now) ++
            keyBlock env.tavily_key (search_tavily req.query req.max_results
              true env.tavily now))) := by
  cases hb1 : env.perplexity_key <;> cases hb2 : env.exa_key <;>
    cases hb3 : env.tavily_key <;>
    cases hp : search_pubmed env.pubmed req.query req.max_results now <;>
    cases hx : search_perplexity req.query true req.perplexity_model true
      env.pplx now <;>
    cases he : search_exa req.query req.max_results true env.exa now <;>
    cases ht : search_tavily req.query req.max_results true env.tavily now <;>
    simp [aggregate_search, aggTasks, okEntries, blockOf, keyBlock,
      hb1, hb2, hb3, hp, hx, he, ht]

/-- Claim C1: every aggregate call returns an `AggregateResponse` (the
modelled `aggregate_search` is a total function) in which the `sources`
and `errors` keys are disjoint, together they are exactly the attempted
provider set, and pubmed is always among them. -/
theorem claim1_aggregate_partition (req : SearchRequest) (env : AggEnv)
    (now : Nat) :
    (∀ p : String,
      ¬(p ∈ (aggregate_search req env now).sources.map Prod.fst ∧
        p ∈ (aggregate_search req env now).errors.map Prod.fst)) ∧
    (∀ p : String,
      p ∈ (aggTasks req env now).map Prod.fst ↔
        (p ∈ (aggregate_search req env now).sources.map Prod.fst ∨
          p ∈ (aggregate_search req env now).errors.map Prod.fst)) ∧
    ("pubmed" ∈ (aggregate_search req env now).sources.map Prod.fst ∨
      "pubmed" ∈ (aggregate_search req env now).errors.map Prod.fst) := by
  refine ⟨?_, ?_, ?_⟩
  · intro p
    exact keys_disjoint (aggTasks req env now)
      (aggTasks_keys_nodup req env now) p
  · intro p
    exact keys_cover (aggTasks req env now) p
  · refine (keys_cover (aggTasks req env now) "pubmed").mp ?_
    rw [aggTasks_keys]
    simp

/-- Claim C1 witness: at a concrete environment, pubmed lands in exactly
one of the two maps. -/
theorem claim1_aggregate_partition_witness :
    ¬("pubmed" ∈ (aggregate_search sampleRequest okAggEnv 0).sources.map
        Prod.fst ∧
      "pubmed" ∈ (aggregate_search sampleRequest okAggEnv 0).errors.map
        Prod.fst) ∧
    ("pubmed" ∈ (aggregate_search sampleRequest okAggEnv 0).sources.map
        Prod.fst ∨
      "pubmed" ∈ (aggregate_search sampleRequest okAggEnv 0).errors.map
        Prod.fst) :=
  ⟨(claim1_aggregate_partition sampleRequest okAggEnv 0).1 "pubmed",
   (claim1_aggregate_partition sampleRequest okAggEnv 0).2.2⟩

/-- Claim C2 counterexample: when the pubmed esearch idlist repeats a pmid
(idlist `["1", "1"]`), the code emits two citations with the same id
`"pubmed-1"`, so `all_citations` ids are not duplicate-free — the claim as
stated (unique for every aggregate response) is false. -/
theorem claim2_counterexample :
    ¬((aggregate_search sampleRequest dupAggEnv 0).all_citations.map
        (fun c => c.id)).Nodup := by
  decide

/-- Claim C2 (amended): provided the upstream esearch idlist is
duplicate-free (which the pubmed id-search guarantees in practice), every
provider citation list has pairwise distinct ids and the merged
`all_citations` ids are globally distinct — the per-index ids `pplx-i`,
`exa-i`, `tavily-i` are always distinct within a provider, and the four
namespace tags can never collide across providers. -/
theorem claim2_all_citation_ids_nodup (req : SearchRequest) (env : AggEnv)
    (now : Nat) (h : (pubmedAttemptIds env.pubmed).Nodup) :
    ((aggregate_search req env now).all_citations.map (fun c => c.id)).Nodup := by
  rw [allCitations_blocks]
  apply four_block_nodup
  · cases hp : search_pubmed env.pubmed req.query req.max_results now with
    | ok r => exact taggedIds_search_pubmed _ _ _ _ _ hp h
    | error e => exact taggedIds_nil _
  · cases hb : env.perplexity_key with
    | false => exact taggedIds_nil _
    | true =>
      cases hx : search_perplexity req.query true req.perplexity_model true
        env.pplx now with
      | ok r => exact taggedIds_search_perplexity _ _ _ _ _ _ _ hx
      | error e => exact taggedIds_nil _
  · cases hb : env.exa_key with
    | false => exact taggedIds_nil _
    | true =>
      cases he : search_exa req.query req.max_results true env.exa now with
      | ok r => exact taggedIds_search_exa _ _ _ _ _ _ he
      | error e => exact taggedIds_nil _
  · cases hb : env.tavily_key with
    | false => exact taggedIds_nil _
    | true =>
      cases ht : search_tavily req.query req.max_results true env.tavily
        now with
      | ok r => exact taggedIds_search_tavily _ _ _ _ _ _ ht
      | error e => exact taggedIds_nil _

/-- Claim C2 witness: a concrete run with all four providers succeeding
has globally duplicate-free citation ids. -/
theorem claim2_all_citation_ids_nodup_witness :
    (pubmedAttemptIds okAggEnv.pubmed).Nodup ∧
    ((aggregate_search sampleRequest okAggEnv 0).all_citations.map
      (fun c => c.id)).Nodup :=
  ⟨by decide,
   claim2_all_citation_ids_nodup sampleRequest okAggEnv 0 (by decide)⟩

/-- Claim C3 counterexample: with an authenticated UpToDate (and MKSAP)
session, `aggregate_search` still never attempts the authenticated
providers — they are absent from the task list, from `sources` and from
`errors`, refuting the claim that a provider is attempted iff its
credential/capability check (session authenticated) passes. -/
theorem claim3_counterexample :
    authAggEnv.logged_in_uptodate = true ∧
    authAggEnv.logged_in_mksap = true ∧
    "uptodate" ∉ (aggTasks sampleRequest authAggEnv 0).map Prod.fst ∧
    "mksap" ∉ (aggTasks sampleRequest authAggEnv 0).map Prod.fst ∧
    "uptodate" ∉ (aggregate_search sampleRequest authAggEnv 0).sources.map
      Prod.fst ∧
    "uptodate" ∉ (aggregate_search sampleRequest authAggEnv 0).errors.map
      Prod.fst := by
  refine ⟨rfl, rfl, ?_, ?_, ?_, ?_⟩ <;> decide

/-- Claim C3 (amended): pubmed is always attempted; perplexity, exa and
tavily are attempted iff their API key is configured; the
authenticated-content providers are never attempted, whatever the session
flags; a provider not attempted appears in neither `sources` nor
`errors`. -/
theorem claim3_candidate_providers (req : SearchRequest) (env : AggEnv)
    (now : Nat) :
    ("pubmed" ∈ (aggTasks req env now).map Prod.fst) ∧
    ("perplexity" ∈ (aggTasks req env now).map Prod.fst ↔
      env.perplexity_key = true) ∧
    ("exa" ∈ (aggTasks req env now).map Prod.fst ↔ env.exa_key = true) ∧
    ("tavily" ∈ (aggTasks req env now).map Prod.fst ↔
      env.tavily_key = true) ∧
    ("uptodate" ∉ (aggTasks req env now).map Prod.fst) ∧
    ("mksap" ∉ (aggTasks req env now).map Prod.fst) ∧
    (∀ p : String, p ∉ (aggTasks req env now).map Prod.fst →
      p ∉ (aggregate_search req env now).sources.map Prod.fst ∧
        p ∉ (aggregate_search req env now).errors.map Prod.fst) := by
  refine ⟨?_, ?_, ?_, ?_, ?_, ?_, ?_⟩
  · rw [aggTasks_keys]
    simp
  · rw [aggTasks_keys]
    cases env.perplexity_key <;> cases env.exa_key <;>
      cases env.tavily_key <;> simp
  · rw [aggTasks_keys]
    cases env.perplexity_key <;> cases env.exa_key <;>
      cases env.tavily_key <;> simp
  · rw [aggTasks_keys]
    cases env.perplexity_key <;> cases env.exa_key <;>
      cases env.tavily_key <;> simp
  · rw [aggTasks_keys]
    cases env.perplexity_key <;> cases env.exa_key <;>
      cases env.tavily_key <;> simp
  · rw [aggTasks_keys]
    cases env.perplexity_key <;> cases env.exa_key <;>
      cases env.tavily_key <;> simp
  · intro p hp
    constructor
    · intro hmem
      exact hp (okEntries_keys_subset _ p hmem)
    · intro hmem
      exact hp (errEntries_keys_subset _ p hmem)

/-- Claim C3 witness: concrete instantiation at an environment with only
the Exa key configured. -/
theorem claim3_candidate_providers_witness :
    ("pubmed" ∈ (aggTasks sampleRequest okAggEnv 0).map Prod.fst) ∧
    ("uptodate" ∉ (aggTasks sampleRequest okAggEnv 0).map Prod.fst) ∧
    ("nosuch" ∉ (aggregate_search sampleRequest okAggEnv 0).sources.map
      Prod.fst) :=
  ⟨(claim3_candidate_providers sampleRequest okAggEnv 0).1,
   (claim3_candidate_providers sampleRequest okAggEnv 0).2.2.2.2.1,
   ((claim3_candidate_providers sampleRequest okAggEnv 0).2.2.2.2.2.2
     "nosuch" (by decide)).1⟩

/-- Claim C4 (code bug in the MKSAP half): `login_uptodate` behaves as
specified, but `login_mksap` reports success and marks the session
authenticated even when no login form was ever found and nothing was
filled or submitted — a selector-mismatch failure that raises no exception
ends in the `# Assume success if no error` line.  The final conjunct shows
the UpToDate login, by contrast, leaves state unchanged on failure. -/
theorem claim4_mksap_login_false_positive :
    login_mksap ⟨false, false⟩ mksapBadEnv = (true, ⟨false, true⟩) ∧
    mksapBadEnv.usernameFilled = false ∧
    mksapBadEnv.passwordFilled = false ∧
    mksapBadEnv.submitClicked = false ∧
    login_uptodate ⟨false, false⟩ ⟨true, .error "timeout"⟩ =
      (false, ⟨false, false⟩) := by
  refine ⟨?_, rfl, rfl, rfl, ?_⟩ <;> decide

/-- Claim C5 counterexample: normalizing an Exa or Tavily result whose url
is the scheme-less string "example.com" raises `IndexError` from
`url.split("/")[2]`, so the normalization mappings are not total. -/
theorem claim5_counterexample :
    exaCitation 0 ⟨none, some "example.com", none, none⟩ =
      .error .indexError ∧
    tavilyCitation 0 ⟨none, some "example.com", none⟩ =
      .error .indexError := by
  constructor <;> rfl

/-- Claim C5 (amended): the Exa and Tavily citation normalizers are total
and use the documented fallback literals ("Untitled" for a missing title,
the provider display name for a missing/empty url) provided every nonempty
url splits on "/" into at least three pieces (as every scheme-bearing URL
does); a url such as "example.com" violates that bound and raises. -/
theorem claim5_normalization_total (i : Nat) (r : ExaRaw) (t : TavilyRaw)
    (hr : r.url.getD "" ≠ "" → 2 < (pySplitChar '/' (r.url.getD "")).length)
    (ht : t.url.getD "" ≠ "" → 2 < (pySplitChar '/' (t.url.getD "")).length) :
    (∃ c, exaCitation i r = .ok c ∧ c.title = r.title.getD "Untitled" ∧
      (r.url.getD "" = "" → c.source = "Exa")) ∧
    (∃ c, tavilyCitation i t = .ok c ∧ c.title = t.title.getD "Untitled" ∧
      (t.url.getD "" = "" → c.source = "Tavily")) := by
  constructor
  · by_cases hu : r.url.getD "" = ""
    · cases hc : exaCitation i r with
      | error e =>
        exfalso
        unfold exaCitation at hc
        rw [if_neg (by simp [hu])] at hc
        simp at hc
      | ok c =>
        refine ⟨c, rfl, ?_, fun _ => ?_⟩
        · unfold exaCitation at hc
          rw [if_neg (by simp [hu])] at hc
          simp only [Except.ok.injEq] at hc
          subst hc
          rfl
        · unfold exaCitation at hc
          rw [if_neg (by simp [hu])] at hc
          simp only [Except.ok.injEq] at hc
          subst hc
          rfl
    · have hlen := hr hu
      cases hc : exaCitation i r with
      | error e =>
        exfalso
        unfold exaCitation at hc
        rw [if_pos hu] at hc
        unfold pyIndex at hc
        rw [List.getElem?_eq_getElem hlen] at hc
        simp at hc
      | ok c =>
        refine ⟨c, rfl, ?_, fun hcon => absurd hcon hu⟩
        unfold exaCitation at hc
        rw [if_pos hu] at hc
        unfold pyIndex at hc
        rw [List.getElem?_eq_getElem hlen] at hc
        simp only [Except.ok.injEq] at hc
        subst hc
        rfl
  · by_cases hu : t.url.getD "" = ""
    · cases hc : tavilyCitation i t with
      | error e =>
        exfalso
        unfold tavilyCitation at hc
        rw [if_neg (by simp [hu])] at hc
        simp at hc
      | ok c =>
        refine ⟨c, rfl, ?_, fun _ => ?_⟩
        · unfold tavilyCitation at hc
          rw [if_neg (by simp [hu])] at hc
          simp only [Except.ok.injEq] at hc
          subst hc
          rfl
        · unfold tavilyCitation at hc
          rw [if_neg (by simp [hu])] at hc
          simp only [Except.ok.injEq] at hc
          subst hc
          rfl
    · have hlen := ht hu
      cases hc : tavilyCitation i t with
      | error e =>
        exfalso
        unfold tavilyCitation at hc
        rw [if_pos hu] at hc
        unfold pyIndex at hc
        rw [List.getElem?_eq_getElem hlen] at hc
        simp at hc
      | ok c =>
        refine ⟨c, rfl, ?_, fun hcon => absurd hcon hu⟩
        unfold tavilyCitation at hc
        rw [if_pos hu] at hc
        unfold pyIndex at hc
        rw [List.getElem?_eq_getElem hlen] at hc
        simp only [Except.ok.injEq] at hc
        subst hc
        rfl

/-- Claim C5 witness: a scheme-bearing Exa url and an absent Tavily url
both normalize successfully. -/
theorem claim5_normalization_total_witness :
    (2 < (pySplitChar '/' "https://nejm.org/a").length) ∧
    (∃ c, exaCitation 0 ⟨none, some "https://nejm.org/a", none, none⟩ =
      .ok c ∧ c.title = (none : Option String).getD "Untitled" ∧
      ((some "https://nejm.org/a" : Option String).getD "" = "" →
        c.source = "Exa")) ∧
    (∃ c, tavilyCitation 0 ⟨none, none, none⟩ = .ok c ∧
      c.title = (none : Option String).getD "Untitled" ∧
      ((none : Option String).getD "" = "" → c.source = "Tavily")) :=
  ⟨by decide,
   (claim5_normalization_total 0 ⟨none, some "https://nejm.org/a", none, none⟩
     ⟨none, none, none⟩ (fun _ => by decide) (fun h => absurd rfl h)).1,
   (claim5_normalization_total 0 ⟨none, some "https://nejm.org/a", none, none⟩
     ⟨none, none, none⟩ (fun _ => by decide) (fun h => absurd rfl h)).2⟩

/-- Claim C6: when the session flag for UpToDate (resp. MKSAP) is false,
the authenticated-content search fails immediately with HTTP 401 and the
operation trace is empty — no browser start, navigation, or network call
was issued. -/
theorem claim6_auth_gate (st : ScraperState) (envU : UtdSearchEnv)
    (envM : MksapSearchEnv) (q : String) (k now : Nat) :
    (st.logged_in_uptodate = false →
      search_uptodate st envU q k now =
        (.error (.http ⟨401, "Not logged into UpToDate. Please login first."⟩),
         [])) ∧
    (st.logged_in_mksap = false →
      search_mksap st envM q k now =
        (.error (.http ⟨401, "Not logged into MKSAP. Please login first."⟩),
         [])) := by
  constructor
  · intro h
    unfold search_uptodate
    rw [h]
    rfl
  · intro h
    unfold search_mksap
    rw [h]
    rfl

/-- Claim C6 witness: concrete unauthenticated state. -/
theorem claim6_auth_gate_witness :
    search_uptodate ⟨false, false⟩ utdFallbackEnv "q" 5 0 =
      (.error (.http ⟨401, "Not logged into UpToDate. Please login first."⟩),
       []) ∧
    search_mksap ⟨false, false⟩ ⟨false, .error "x"⟩ "q" 5 0 =
      (.error (.http ⟨401, "Not logged into MKSAP. Please login first."⟩),
       []) :=
  ⟨(claim6_auth_gate ⟨false, false⟩ utdFallbackEnv ⟨false, .error "x"⟩
      "q" 5 0).1 rfl,
   (claim6_auth_gate ⟨false, false⟩ utdFallbackEnv ⟨false, .error "x"⟩
      "q" 5 0).2 rfl⟩

/-- Claim C7: a PubMed search whose esearch idlist is empty returns a
successful response with content exactly "No results found." and no
citations; the result does not depend on the esummary environment at all,
so the second (batch metadata) fetch is never issued. -/
theorem claim7_pubmed_empty (d : EsearchData)
    (es : Except String EsummaryData) (q : String) (k now : Nat)
    (h : pubmedIds d = []) :
    search_pubmed ⟨.ok d, es⟩ q k now =
      .ok { provider := "pubmed", query := q, content := "No results found.",
            citations := [], timestamp := now } := by
  unfold search_pubmed
  simp [h]

/-- Claim C7 witness: concrete empty idlist, with an esummary environment
that would fail if it were ever consulted. -/
theorem claim7_pubmed_empty_witness :
    pubmedIds ⟨some ⟨some []⟩⟩ = [] ∧
    search_pubmed ⟨.ok ⟨some ⟨some []⟩⟩, .error "unreachable"⟩ "q" 5 0 =
      .ok { provider := "pubmed", query := "q",
            content := "No results found.", citations := [],
            timestamp := 0 } :=
  ⟨rfl, claim7_pubmed_empty ⟨some ⟨some []⟩⟩ (.error "unreachable") "q" 5 0
    rfl⟩

/-- Claim C8: an UpToDate search with at least one hit whose secondary
full-article fetch raises still returns a successful response whose
content is the divider-joined snippet blocks built from the initial search
hits. -/
theorem claim8_uptodate_fallback (st : ScraperState) (env : UtdSearchEnv)
    (q : String) (k now : Nat) (hits : List UtdHit) (em : String)
    (hlog : st.logged_in_uptodate = true) (hbr : env.browserOk = true)
    (hpage : env.searchPage = .ok hits) (hne : hits ≠ [])
    (hfail : env.articleFetch = .error em) :
    (search_uptodate st env q k now).1 =
      .ok { provider := "uptodate", query := q,
            content := String.intercalate divider
              (utdContentParts (hits.take k)),
            citations := utdCitations (hits.take k), timestamp := now } := by
  unfold search_uptodate
  rw [hlog, hbr, hpage]
  simp only [Bool.true_eq_false, if_false]
  cases hc : utdCitations (hits.take k) with
  | nil =>
    simp only
  | cons c0 rest =>
    simp only
    by_cases hurl : c0.url.getD "" ≠ ""
    · rw [if_pos hurl, hfail]
      simp [← hc]
    · rw [if_neg hurl]

/-- Claim C8 witness: one concrete hit, fetch raises, snippet join
returned. -/
theorem claim8_uptodate_fallback_witness :
    utdFallbackEnv.articleFetch = .error "navigation timeout" ∧
    (search_uptodate ⟨true, false⟩ utdFallbackEnv "sepsis" 5 0).1 =
      .ok { provider := "uptodate", query := "sepsis",
            content := String.intercalate divider
              (utdContentParts ([⟨some "Sepsis in adults", "/contents/sepsis",
                "Sepsis overview snippet"⟩].take 5)),
            citations := utdCitations ([⟨some "Sepsis in adults",
              "/contents/sepsis", "Sepsis overview snippet"⟩].take 5),
            timestamp := 0 } :=
  ⟨rfl, claim8_uptodate_fallback ⟨true, false⟩ utdFallbackEnv "sepsis" 5 0
    [⟨some "Sepsis in adults", "/contents/sepsis",
      "Sepsis overview snippet"⟩] "navigation timeout" rfl rfl rfl
    (by simp) rfl⟩

/-- Claim C9: the three Perplexity model tiers map to pairwise distinct
system prompts (for either value of `medical_focus`); the reasoning tier
samples at temperature 0.1, strictly below the 0.2 used by the other
tiers; and any unrecognized model name falls back to the sonar-pro
prompt. -/
theorem claim9_model_tiers : ∀ mf : Bool,
    (perplexitySystemPrompt mf "sonar-pro" ≠
      perplexitySystemPrompt mf "sonar-reasoning-pro") ∧
    (perplexitySystemPrompt mf "sonar-pro" ≠
      perplexitySystemPrompt mf "sonar-deep-research") ∧
    (perplexitySystemPrompt mf "sonar-reasoning-pro" ≠
      perplexitySystemPrompt mf "sonar-deep-research") ∧
    perplexityTemperature "sonar-reasoning-pro" = 1 / 10 ∧
    perplexityTemperature "sonar-pro" = 2 / 10 ∧
    perplexityTemperature "sonar-deep-research" = 2 / 10 ∧
    perplexityTemperature "sonar-reasoning-pro" <
      perplexityTemperature "sonar-pro" ∧
    (∀ m : String, m ≠ "sonar-pro" → m ≠ "sonar-reasoning-pro" →
      m ≠ "sonar-deep-research" →
      perplexitySystemPrompt mf m = perplexitySystemPrompt mf "sonar-pro") := by
  intro mf
  refine ⟨?_, ?_, ?_, ?_, ?_, ?_, ?_, ?_⟩
  · cases mf <;> decide
  · cases mf <;> decide
  · cases mf <;> decide
  · unfold perplexityTemperature
    rw [if_pos rfl]
    norm_num
  · unfold perplexityTemperature
    rw [if_neg (by decide)]
    norm_num
  · unfold perplexityTemperature
    rw [if_neg (by decide)]
    norm_num
  · unfold perplexityTemperature
    rw [if_pos rfl, if_neg (by decide)]
    norm_num
  · intro m h1 h2 h3
    unfold perplexitySystemPrompt
    rw [if_neg h1, if_neg h2, if_neg h3, if_pos rfl]

/-- Claim C9 witness: the unrecognized tier "gpt-4" gets the sonar-pro
prompt and the reasoning temperature is strictly lower. -/
theorem claim9_model_tiers_witness :
    perplexitySystemPrompt true "gpt-4" =
      perplexitySystemPrompt true "sonar-pro" ∧
    perplexityTemperature "sonar-reasoning-pro" <
      perplexityTemperature "sonar-pro" :=
  ⟨(claim9_model_tiers true).2.2.2.2.2.2.2 "gpt-4" (by decide) (by decide)
    (by decide),
   (claim9_model_tiers true).2.2.2.2.2.2.1⟩

theorem pplxCitations_length (raw : List PplxRawCitation) :
    (pplxCitations raw).length = raw.length := by
  unfold pplxCitations
  rw [List.length_map, List.enum_length]

/-- Claim C10: the `/search/perplexity` endpoint ignores
`request.max_results` entirely — two requests differing only in
`max_results` produce identical results, and a successful result carries
exactly one citation per upstream raw citation (no truncation); by
contrast the Exa, Tavily and PubMed request bodies all carry
`max_results`. -/
theorem claim10_perplexity_ignores_max_results (r1 r2 : SearchRequest)
    (hk : Bool) (up : Upstream PplxUpstream) (now : Nat) (q key : String)
    (n : Nat) (hq : r1.query = r2.query)
    (hm : r1.perplexity_model = r2.perplexity_model) :
    endpoint_search_perplexity r1 hk up now =
      endpoint_search_perplexity r2 hk up now ∧
    (∀ (u : PplxUpstream) (resp : SearchResponse), up = .ok u →
      endpoint_search_perplexity r1 hk up now = .ok resp →
      resp.citations.length = (u.citations.getD []).length) ∧
    (exaRequestBody q n).numResults = n ∧
    (tavilyRequestBody key q n).max_results = n ∧
    (pubmedEsearchParams q n).retmax = n := by
  refine ⟨?_, ?_, rfl, rfl, rfl⟩
  · unfold endpoint_search_perplexity
    rw [hq, hm]
  · intro u resp hup hok
    subst hup
    unfold endpoint_search_perplexity search_perplexity at hok
    split at hok
    · simp at hok
    · split at hok
      · simp at hok
      · simp at hok
      · rename_i u' heq
        injection heq with h2
        subst h2
        split at hok
        · simp at hok
        · simp only [Except.ok.injEq] at hok
          subst hok
          exact pplxCitations_length _

/-- Claim C10 witness: with seven upstream citations and `max_results = 5`
versus `max_results = 99`, the endpoint results coincide and carry all
seven citations. -/
theorem claim10_perplexity_ignores_max_results_witness :
    c10req1.max_results = 5 ∧ c10req2.max_results = 99 ∧
    endpoint_search_perplexity c10req1 true c10up 0 =
      endpoint_search_perplexity c10req2 true c10up 0 ∧
    (endpoint_search_perplexity c10req1 true c10up 0).map
      (fun r => r.citations.length) = .ok 7 ∧
    (exaRequestBody "sepsis" 5).numResults = 5 :=
  ⟨rfl, rfl,
   (claim10_perplexity_ignores_max_results c10req1 c10req2 true c10up 0
     "sepsis" "k" 5 rfl rfl).1,
   by decide,
   (claim10_perplexity_ignores_max_results c10req1 c10req2 true c10up 0
     "sepsis" "k" 5 rfl rfl).2.2.1⟩
